import Mathlib

/-!
Shallow embedding of the message-dispatch runtime of the repository
(`src/protocol/*.rs`, `src/server/*.rs`): the envelope data model, the error
taxonomy, JSON (de)serialization of payload mappings, the per-dispatch message
context, the outbound sender, the handler registry/dispatcher, and the node
lifecycle service.  Machine integers (`usize`) are modelled as `Nat` (no
overflow is reachable for the properties below), `serde_json::Value` as an
inductive `Json`, `VecDeque` as a `List` (front = head, push_back = append),
and interior mutability (`RefCell`) as explicit state passing of the sender.
-/

/-- Embeds `serde_json::Value`: the dynamic JSON document values payloads are made of.
Objects are kept as ordered association lists of fields. -/
inductive Json where
  | null : Json
  | bool (b : Bool) : Json
  | num (n : Nat) : Json
  | str (s : String) : Json
  | arr (elems : List Json) : Json
  | obj (fields : List (String × Json)) : Json

/-- Embeds `DynamicMap` = `serde_json::Map<String, Value>` (src/protocol/payload.rs). -/
def DynamicMap : Type := List (String × Json)

/-- Embeds `MessageContent` (src/protocol/payload.rs): discriminator plus flattened
open payload mapping. -/
structure MessageContent where
  kind : String
  data : DynamicMap

/-- Embeds `MessageBody` (src/protocol/payload.rs). -/
structure MessageBody where
  msg_id : Option Nat
  in_reply_to : Option Nat
  content : MessageContent

/-- Embeds `Message` (src/protocol/payload.rs): one wire envelope. -/
structure Message where
  src : Option String
  dest : Option String
  body : MessageBody

/-- Embeds `Message::kind` (src/protocol/payload.rs). -/
def Message.kind (m : Message) : String := m.body.content.kind

/-- Embeds `ErrorKind` (src/protocol/errors.rs). -/
inductive ErrorKind where
  | Timeout
  | NodeNotFound
  | NotSupported
  | TemporarilyUnavailable
  | MalformedRequest
  | Crash
  | Abort
  | KeyDoesNotExist
  | KeyAlreadyExists
  | PreconditionFailed
  | TxnConflict

/-- Embeds `From<ErrorKind> for usize` (src/protocol/errors.rs, lines 18-34): the
fixed numeric wire code of each kind. -/
def ErrorKind.code : ErrorKind → Nat
  | .Timeout => 0
  | .NodeNotFound => 1
  | .NotSupported => 10
  | .TemporarilyUnavailable => 11
  | .MalformedRequest => 12
  | .Crash => 13
  | .Abort => 14
  | .KeyDoesNotExist => 20
  | .KeyAlreadyExists => 21
  | .PreconditionFailed => 22
  | .TxnConflict => 30

/-- Embeds `ErrorMessage` (src/protocol/errors.rs).  The process-local `source`
(`Box<dyn Error>`, never serialized) is modelled by the string its `Display`
implementation would produce. -/
structure ErrorMessage where
  code : Nat
  text : String
  source : Option String

/-- Embeds `ErrorMessage::new` (src/protocol/errors.rs). -/
def ErrorMessage.new (error : ErrorKind) (text : String) : ErrorMessage :=
  { code := error.code, text := text, source := none }

/-- Embeds `ErrorMessage::with_source` (src/protocol/errors.rs). -/
def ErrorMessage.withSource (e : ErrorMessage) (src : String) : ErrorMessage :=
  { e with source := some src }

/-- Embeds `Display for ErrorMessage` (src/protocol/errors.rs, lines 62-71). -/
def ErrorMessage.display (e : ErrorMessage) : String :=
  ("[" ++ toString e.code ++ "] " ++ e.text) ++
    (match e.source with
     | none => ""
     | some src => "\nSource: " ++ src)

/-- Embeds `Serialize for ErrorMessage` (serde derive, src/protocol/errors.rs): the
`code` and `text` fields are emitted, `source` is skipped. -/
def ErrorMessage.toJson (e : ErrorMessage) : Json :=
  Json.obj [("code", Json.num e.code), ("text", Json.str e.text)]

/-- Embeds `serialize_message_content` (src/protocol/serialization.rs, lines 18-31),
taking the `serde_json::to_value` image of the Rust payload as input:
`Null` becomes the empty mapping, objects pass through, anything else is a
`Crash` error. -/
def serialize_message_content (v : Json) : Except ErrorMessage DynamicMap :=
  match v with
  | Json.null => .ok []
  | Json.obj m => .ok m
  | _ => .error (ErrorMessage.new .Crash "message content must serialize to an object")

/-- Embeds `deserialize_message_content` (src/protocol/serialization.rs, lines 5-16),
generic over the typed decoder `T::deserialize` (whose failure is modelled by
the rendered serde error string): a decode failure is wrapped as a
`MalformedRequest` with the failure attached as the cause. -/
def deserialize_message_content {T : Type} (dec : DynamicMap → Except String T)
    (msg : Message) : Except ErrorMessage T :=
  match dec msg.body.content.data with
  | .ok t => .ok t
  | .error err =>
      .error ((ErrorMessage.new .MalformedRequest
        ("failed to deserialize message `" ++ msg.kind ++ "`")).withSource err)

/-- Embeds `MaelstromServerMessageSender` (src/server/sender.rs): the known peer set
and the outbound buffer (`VecDeque`, front at the head of the list). -/
structure MaelstromServerMessageSender where
  node_ids : List String
  outgoing_msgs : List Message

/-- Embeds `MaelstromServerMessageSender::new` (src/server/sender.rs). -/
def MaelstromServerMessageSender.new : MaelstromServerMessageSender :=
  { node_ids := [], outgoing_msgs := [] }

/-- Embeds `MaelstromServerMessageSender::pop` (src/server/sender.rs): pop the front
of the outbound buffer. -/
def MaelstromServerMessageSender.pop (s : MaelstromServerMessageSender) :
    Option Message × MaelstromServerMessageSender :=
  match s.outgoing_msgs with
  | [] => (none, s)
  | m :: rest => (some m, { s with outgoing_msgs := rest })

/-- Embeds `MaelstromServerMessageSender::set_node_ids` (src/server/sender.rs). -/
def MaelstromServerMessageSender.set_node_ids (s : MaelstromServerMessageSender)
    (ids : List String) : MaelstromServerMessageSender :=
  { s with node_ids := ids }

/-- Embeds `MaelstromServerMessageSender::send` (src/server/sender.rs, lines 28-44):
the assigned `msg_id` is the current buffer length plus one, `src` is left
empty (stamped later by `MaelstromService::output`), and the envelope is
pushed at the back of the buffer. -/
def MaelstromServerMessageSender.send (s : MaelstromServerMessageSender)
    (kind : String) (data : DynamicMap) (dest : Option String)
    (in_reply_to : Option Nat) : MaelstromServerMessageSender :=
  let msg_id := some (s.outgoing_msgs.length + 1)
  { s with
    outgoing_msgs := s.outgoing_msgs ++
      [{ src := none, dest := dest,
         body := { in_reply_to := in_reply_to, msg_id := msg_id,
                   content := { kind := kind, data := data } } }] }

/-- Embeds `MaelstromServerMessageSender::fan_out` (src/server/sender.rs, lines
46-51): one `send` per known peer, in peer-set order, each with no
`in_reply_to` and a verbatim copy of the payload. -/
def MaelstromServerMessageSender.fan_out (s : MaelstromServerMessageSender)
    (kind : String) (data : DynamicMap) : MaelstromServerMessageSender :=
  s.node_ids.foldl (fun st node_id => st.send kind data (some node_id) none) s

/-- Embeds `MessageContext` (src/protocol/context.rs): the per-dispatch view of the
optional inbound envelope.  The borrowed sender is passed explicitly to each
operation as threaded state. -/
structure MessageContext where
  msg : Option Message

/-- Embeds `MessageContext::empty` (src/protocol/context.rs). -/
def MessageContext.empty : MessageContext := { msg := none }

/-- Embeds `MessageContext::with_message` (src/protocol/context.rs). -/
def MessageContext.with_message (_ctx : MessageContext) (m : Message) :
    MessageContext := { msg := some m }

/-- Embeds `MessageContext::message_kind` (src/protocol/context.rs): the inbound
discriminator, or the empty string when no inbound message is present. -/
def MessageContext.message_kind (ctx : MessageContext) : String :=
  (ctx.msg.map Message.kind).getD ""

/-- Embeds `MessageContext::message_src` (src/protocol/context.rs). -/
def MessageContext.message_src (ctx : MessageContext) : Option String :=
  ctx.msg.bind (fun m => m.src)

/-- Embeds `MessageContext::message_id` (src/protocol/context.rs). -/
def MessageContext.message_id (ctx : MessageContext) : Option Nat :=
  ctx.msg.bind (fun m => m.body.msg_id)

/-- Embeds `MessageContext::message_content` (src/protocol/context.rs, lines 57-66),
generic over the typed decoder: decodes the inbound payload, or fails with a
`Crash` error when no inbound message is present. -/
def MessageContext.message_content {T : Type}
    (dec : DynamicMap → Except String T) (ctx : MessageContext) :
    Except ErrorMessage T :=
  match ctx.msg with
  | some m => deserialize_message_content dec m
  | none => .error (ErrorMessage.new .Crash "message not available")

/-- Embeds `MessageContext::send` (src/protocol/context.rs, lines 100-113):
serialize the payload, then append one envelope through the sender. -/
def MessageContext.send (_ctx : MessageContext) (kind : String) (data : Json)
    (dest : Option String) (in_reply_to : Option Nat)
    (s : MaelstromServerMessageSender) :
    Except ErrorMessage MaelstromServerMessageSender :=
  match serialize_message_content data with
  | .ok map => .ok (s.send kind map dest in_reply_to)
  | .error e => .error e

/-- Embeds `MessageContext::reply` (src/protocol/context.rs, lines 68-79): a `send`
addressed to the inbound sender, correlated to the inbound `msg_id`. -/
def MessageContext.reply (ctx : MessageContext) (kind : String) (data : Json)
    (s : MaelstromServerMessageSender) :
    Except ErrorMessage MaelstromServerMessageSender :=
  ctx.send kind data (ctx.msg.bind (fun m => m.src))
    (ctx.msg.bind (fun m => m.body.msg_id)) s

/-- Embeds `MessageContext::error` (src/protocol/context.rs, lines 81-83): a reply of
kind `"error"` carrying the serialized error. -/
def MessageContext.error (ctx : MessageContext) (e : ErrorMessage)
    (s : MaelstromServerMessageSender) :
    Except ErrorMessage MaelstromServerMessageSender :=
  ctx.reply "error" e.toJson s

/-- Embeds `MessageContext::broadcast` (src/protocol/context.rs, lines 85-90): a
`send` with no destination and no correlation. -/
def MessageContext.broadcast (ctx : MessageContext) (kind : String)
    (data : Json) (s : MaelstromServerMessageSender) :
    Except ErrorMessage MaelstromServerMessageSender :=
  ctx.send kind data none none s

/-- Embeds `MessageContext::fan_out` (src/protocol/context.rs, lines 92-98):
serialize the payload once, then fan it out through the sender. -/
def MessageContext.fan_out (_ctx : MessageContext) (kind : String)
    (data : Json) (s : MaelstromServerMessageSender) :
    Except ErrorMessage MaelstromServerMessageSender :=
  match serialize_message_content data with
  | .ok map => .ok (s.fan_out kind map)
  | .error e => .error e

/-- Embeds `InitMessage` (src/server/system_messages.rs). -/
structure InitMessage where
  node_id : String
  node_ids : List String

/-- serde string decoder: a JSON string value, anything else is a type error. -/
def decodeString : Json → Except String String
  | Json.str s => .ok s
  | _ => .error "invalid type: expected a string"

/-- serde decoder for a list of strings, element by element. -/
def decodeStrings : List Json → Except String (List String)
  | [] => .ok []
  | x :: rest =>
      match decodeString x with
      | .error e => .error e
      | .ok s =>
          match decodeStrings rest with
          | .error e => .error e
          | .ok ss => .ok (s :: ss)

/-- serde decoder for a JSON array of strings. -/
def decodeStringList : Json → Except String (List String)
  | Json.arr xs => decodeStrings xs
  | _ => .error "invalid type: expected a sequence"

/-- serde-derived deserializer of `InitMessage` from a payload mapping
(src/server/system_messages.rs): requires a string field `node_id` and a
string-array field `node_ids`; unknown fields are ignored. -/
def decodeInitMessage (data : DynamicMap) : Except String InitMessage :=
  match List.lookup "node_id" data with
  | none => .error "missing field `node_id`"
  | some v =>
      match decodeString v with
      | .error e => .error e
      | .ok node_id =>
          match List.lookup "node_ids" data with
          | none => .error "missing field `node_ids`"
          | some w =>
              match decodeStringList w with
              | .error e => .error e
              | .ok node_ids => .ok { node_id := node_id, node_ids := node_ids }

/-- Embeds `MaelstromServerNode` (src/server/node.rs). -/
structure MaelstromServerNode where
  node_id : Option String
  node_ids : List String

/-- Embeds `MaelstromServerNode::create` (src/server/node.rs, lines 13-26): decode
the init payload, emit `init_ok` through `MessageContext::broadcast` (the
`InitOkMessage` unit struct serializes to JSON `null`), and return the node
identity.  On the error paths the sender buffer is untouched, matching the
early returns. -/
def MaelstromServerNode.create (ctx : MessageContext)
    (s : MaelstromServerMessageSender) :
    MaelstromServerMessageSender × Except ErrorMessage MaelstromServerNode :=
  match ctx.message_content decodeInitMessage with
  | .error e => (s, .error e)
  | .ok init_msg =>
      match ctx.broadcast "init_ok" Json.null s with
      | .error e => (s, .error e)
      | .ok s' =>
          (s', .ok { node_id := some init_msg.node_id,
                     node_ids := init_msg.node_ids })

/-- The denotation of one registered handler instance
(`Box<dyn MessageReceiver>`, src/server/handler.rs): invoked with the
dispatch context, it transforms the sender state and either succeeds or
yields an error. -/
def HandlerFn : Type :=
  MessageContext → MaelstromServerMessageSender →
    MaelstromServerMessageSender × Option ErrorMessage

/-- Embeds `MaelstromServerMessageHandler` (src/server/handler.rs): the handler
instances in registration order and the discriminator-to-indices mapping
(`HashMap` modelled as an association list). -/
structure MaelstromServerMessageHandler where
  msg_handlers : List (String × List Nat)
  handlers : List HandlerFn

/-- Embeds `MaelstromServerMessageHandler::new` (src/server/handler.rs). -/
def MaelstromServerMessageHandler.new : MaelstromServerMessageHandler :=
  { msg_handlers := [], handlers := [] }

/-- The `HashMap` update inside `register_handler` (src/server/handler.rs,
lines 29-36): append the new index to the discriminator's list, creating the
entry when absent. -/
def addHandlerIdx (m : List (String × List Nat)) (k : String) (idx : Nat) :
    List (String × List Nat) :=
  match m with
  | [] => [(k, [idx])]
  | (k', idxs) :: rest =>
      if k' = k then (k', idxs ++ [idx]) :: rest
      else (k', idxs) :: addHandlerIdx rest k idx

/-- Embeds `MaelstromServerMessageHandler::register_handler` (src/server/handler.rs,
lines 20-37): append the handler instance, then record its index under every
discriminator it declares (`T::get_handled_messages`). -/
def MaelstromServerMessageHandler.register_handler
    (r : MaelstromServerMessageHandler) (h : HandlerFn)
    (msg_types : List String) : MaelstromServerMessageHandler :=
  let handle_idx := r.handlers.length
  { msg_handlers := msg_types.foldl (fun m k => addHandlerIdx m k handle_idx) r.msg_handlers,
    handlers := r.handlers ++ [h] }

/-- The dispatch loop of `handle_message` (src/server/handler.rs, lines
44-48): invoke `self.handlers[idx]` for each recorded index in order; the `?`
operator stops at the first failing invocation. -/
def runHandlerIdxs (hs : List HandlerFn) (ctx : MessageContext) :
    List Nat → MaelstromServerMessageSender →
      MaelstromServerMessageSender × Option ErrorMessage
  | [], s => (s, none)
  | i :: rest, s =>
      match (hs.getD i (fun _ st => (st, none))) ctx s with
      | (s', none) => runHandlerIdxs hs ctx rest s'
      | (s', some e) => (s', some e)

/-- Embeds `MaelstromServerMessageHandler::handle_message` (src/server/handler.rs,
lines 39-55): look the discriminator up in `msg_handlers`; when absent, fail
with `NotSupported` naming it, otherwise run the registered handlers. -/
def MaelstromServerMessageHandler.handle_message
    (r : MaelstromServerMessageHandler) (ctx : MessageContext)
    (s : MaelstromServerMessageSender) :
    MaelstromServerMessageSender × Option ErrorMessage :=
  match List.lookup ctx.message_kind r.msg_handlers with
  | some idxs => runHandlerIdxs r.handlers ctx idxs s
  | none =>
      (s, some (ErrorMessage.new .NotSupported
        ("message type " ++ ctx.message_kind ++ " not supported")))

/-- Embeds `MaelstromService` (src/server/service.rs). -/
structure MaelstromService where
  handler : MaelstromServerMessageHandler
  sender : MaelstromServerMessageSender
  node : Option MaelstromServerNode

/-- Embeds `MaelstromService::new` (src/server/service.rs). -/
def MaelstromService.new : MaelstromService :=
  { handler := MaelstromServerMessageHandler.new,
    sender := MaelstromServerMessageSender.new,
    node := none }

/-- Embeds `MaelstromService::handle` (src/server/service.rs, lines 68-96): an
`"init"` discriminator goes to `MaelstromServerNode::create` (storing the
node on success); anything else is dispatched through the registry when a
node exists, and fails with `PreconditionFailed` naming the discriminator
when the node is still uninitialized. -/
def MaelstromService.handle (svc : MaelstromService) (msg : Message) :
    MaelstromService × Option ErrorMessage :=
  let ctx := MessageContext.empty.with_message msg
  if ctx.message_kind = "init" then
    match MaelstromServerNode.create ctx svc.sender with
    | (s', .ok node) => ({ svc with node := some node, sender := s' }, none)
    | (s', .error e) => ({ svc with sender := s' }, some e)
  else
    match svc.node with
    | some _node =>
        let res := svc.handler.handle_message ctx svc.sender
        ({ svc with sender := res.1 }, res.2)
    | none =>
        (svc, some (ErrorMessage.new .PreconditionFailed
          ("node is not initialized before handling message type " ++
            ctx.message_kind)))

/-- Embeds `MaelstromService::input` (src/server/service.rs, lines 46-66): a line
that fails to decode into an envelope is turned into a `MalformedRequest`
reported through an empty context; a decoded envelope is handled, and a
handling failure is reported through the context that carries the inbound
message (so the error reply is addressed to its sender).  The result of
`ctx.error` is discarded (`let _ =`). -/
def MaelstromService.input (svc : MaelstromService)
    (message : Except String Message) : MaelstromService :=
  match message with
  | .error err =>
      let ctx := MessageContext.empty
      match ctx.error (ErrorMessage.new .MalformedRequest err) svc.sender with
      | .ok s' => { svc with sender := s' }
      | .error _ => svc
  | .ok msg =>
      let handled := svc.handle msg
      match handled.2 with
      | none => handled.1
      | some e =>
          let ctx := MessageContext.empty.with_message msg
          match ctx.error e handled.1.sender with
          | .ok s' => { handled.1 with sender := s' }
          | .error _ => handled.1

/-- Embeds `MaelstromService::output` (src/server/service.rs, lines 38-44): pop the
front outbound envelope and stamp its `src` with the node's identity. -/
def MaelstromService.output (svc : MaelstromService) :
    Option Message × MaelstromService :=
  let popped := svc.sender.pop
  (popped.1.map (fun msg =>
      { msg with src := svc.node.bind (fun node => node.node_id) }),
   { svc with sender := popped.2 })

/-- Whether a JSON value is an object (the spec's "object-shaped (open
mapping) value"). -/
def Json.isObj : Json → Bool
  | Json.obj _ => true
  | _ => false

/-- Whether a JSON value is `null`. -/
def Json.isNull : Json → Bool
  | Json.null => true
  | _ => false

/-- The payload mapping `serialize_message_content` yields on its success
cases (`null` becomes the empty mapping). -/
def Json.asMapping : Json → DynamicMap
  | Json.obj fields => fields
  | _ => []

/-- The `msg_id` fields of the buffered outbound envelopes that carry one. -/
def assignedMsgIds (s : MaelstromServerMessageSender) : List Nat :=
  s.outgoing_msgs.filterMap (fun m => m.body.msg_id)

/-- A batch of direct `send` calls (kind, payload, destination, correlation),
applied in order: used to speak about runs of the output sequencer. -/
def sendMany (s : MaelstromServerMessageSender)
    (reqs : List (String × DynamicMap × Option String × Option Nat)) :
    MaelstromServerMessageSender :=
  reqs.foldl (fun st r => st.send r.1 r.2.1 r.2.2.1 r.2.2.2) s

/-- The envelopes `fan_out` appends when the buffer already holds `base`
envelopes: one per peer, in order, carrying consecutive `msg_id`s. -/
def fanOutEnvs (base : Nat) (kind : String) (data : DynamicMap) :
    List String → List Message
  | [] => []
  | p :: ps =>
      { src := none, dest := some p,
        body := { in_reply_to := none, msg_id := some (base + 1),
                  content := { kind := kind, data := data } } } ::
        fanOutEnvs (base + 1) kind data ps

/-- A registry built by successive `register_handler` calls, each handler
with its declared discriminators, starting from the empty registry. -/
def registryOf (hs : List (HandlerFn × List String)) :
    MaelstromServerMessageHandler :=
  hs.foldl (fun r p => r.register_handler p.1 p.2)
    MaelstromServerMessageHandler.new

/-- The state reached after the given handlers all ran (in order, against the
same context), ignoring their verdicts. -/
def runAllHandlers (ctx : MessageContext) (hs : List HandlerFn)
    (s : MaelstromServerMessageSender) : MaelstromServerMessageSender :=
  hs.foldl (fun st h => (h ctx st).1) s

/-- The dispatch loop over handler denotations themselves (rather than over
registry indices): run each in order, stopping at the first failure. -/
def runHandlerFns (ctx : MessageContext) :
    List HandlerFn → MaelstromServerMessageSender →
      MaelstromServerMessageSender × Option ErrorMessage
  | [], s => (s, none)
  | h :: rest, s =>
      match h ctx s with
      | (s', none) => runHandlerFns ctx rest s'
      | (s', some e) => (s', some e)

/-- Convenience constructor for concrete wire envelopes used in statements
below. -/
def mkMessage (src dest : Option String) (msg_id in_reply_to : Option Nat)
    (kind : String) (data : DynamicMap) : Message :=
  { src := src, dest := dest,
    body := { msg_id := msg_id, in_reply_to := in_reply_to,
              content := { kind := kind, data := data } } }

/-- Convenience constructor for concrete sender states used in statements
below. -/
def mkSender (ids : List String) (msgs : List Message) :
    MaelstromServerMessageSender :=
  { node_ids := ids, outgoing_msgs := msgs }

/-- C5: every `ErrorKind` maps to its fixed numeric wire code, and an
`ErrorMessage` renders to text as `[{code}] {text}`, with a `\nSource: {cause}`
line appended exactly when a cause is attached. -/
theorem errorKind_codes_and_errorMessage_display :
    (ErrorKind.Timeout.code = 0 ∧ ErrorKind.NodeNotFound.code = 1 ∧
     ErrorKind.NotSupported.code = 10 ∧ ErrorKind.TemporarilyUnavailable.code = 11 ∧
     ErrorKind.MalformedRequest.code = 12 ∧ ErrorKind.Crash.code = 13 ∧
     ErrorKind.Abort.code = 14 ∧ ErrorKind.KeyDoesNotExist.code = 20 ∧
     ErrorKind.KeyAlreadyExists.code = 21 ∧ ErrorKind.PreconditionFailed.code = 22 ∧
     ErrorKind.TxnConflict.code = 30)
    ∧ (∀ c t, ErrorMessage.display { code := c, text := t, source := none } =
        "[" ++ toString c ++ "] " ++ t)
    ∧ (∀ c t cause,
        ErrorMessage.display { code := c, text := t, source := some cause } =
          ("[" ++ toString c ++ "] " ++ t) ++ ("\nSource: " ++ cause)) := by
  refine ⟨⟨rfl, rfl, rfl, rfl, rfl, rfl, rfl, rfl, rfl, rfl, rfl⟩, ?_, ?_⟩
  · intro c t
    simp [ErrorMessage.display, String.append_empty]
  · intro c t cause
    rfl

/-- C6: dispatching a discriminator with no entry in `msg_handlers` fails with
a `NotSupported` error (code 10) whose text contains the discriminator, the
sender buffer is untouched, and the outcome does not depend on the handler
instances at all (no handler is invoked). -/
theorem dispatch_unknown_kind_not_supported
    (reg : MaelstromServerMessageHandler) (ctx : MessageContext)
    (s : MaelstromServerMessageSender) (k : String)
    (hk : ctx.message_kind = k)
    (habsent : List.lookup k reg.msg_handlers = none) :
    (reg.handle_message ctx s =
       (s, some (ErrorMessage.new .NotSupported
         ("message type " ++ k ++ " not supported"))))
    ∧ (ErrorMessage.new .NotSupported
         ("message type " ++ k ++ " not supported")).code = 10
    ∧ (∃ pre suf, ("message type " ++ k ++ " not supported") = pre ++ k ++ suf)
    ∧ (∀ hs', MaelstromServerMessageHandler.handle_message
         { msg_handlers := reg.msg_handlers, handlers := hs' } ctx s =
         (s, some (ErrorMessage.new .NotSupported
           ("message type " ++ k ++ " not supported")))) := by
  subst hk
  refine ⟨?_, rfl, ⟨"message type ", " not supported", rfl⟩, ?_⟩
  · unfold MaelstromServerMessageHandler.handle_message
    rw [habsent]
  · intro hs'
    unfold MaelstromServerMessageHandler.handle_message
    rw [habsent]

/-- Witness for C6: on a fresh registry, dispatching `"bogus"` yields exactly
the `NotSupported` error naming it. -/
theorem dispatch_unknown_kind_not_supported_witness :
    MaelstromServerMessageHandler.new.handle_message
        (MessageContext.empty.with_message
          { src := none, dest := none,
            body := { msg_id := some 1, in_reply_to := none,
                      content := { kind := "bogus", data := [] } } })
        MaelstromServerMessageSender.new =
      (MaelstromServerMessageSender.new,
       some (ErrorMessage.new .NotSupported
         ("message type " ++ "bogus" ++ " not supported"))) :=
  (dispatch_unknown_kind_not_supported MaelstromServerMessageHandler.new
    (MessageContext.empty.with_message
      { src := none, dest := none,
        body := { msg_id := some 1, in_reply_to := none,
                  content := { kind := "bogus", data := [] } } })
    MaelstromServerMessageSender.new "bogus" rfl rfl).1

/-- C4 (amended): `message_content` on a payload that does not decode to the
requested shape fails with `MalformedRequest` wrapping the decode failure as
its cause; on a context with no inbound message it fails with a `Crash` error
(`"message not available"`), not with `MalformedRequest`. -/
theorem message_content_errors
    {T : Type} (dec : DynamicMap → Except String T) (m : Message) (err : String)
    (hdec : dec m.body.content.data = .error err) :
    (MessageContext.message_content dec { msg := some m } =
       .error ((ErrorMessage.new .MalformedRequest
         ("failed to deserialize message `" ++ m.kind ++ "`")).withSource err))
    ∧ MessageContext.message_content dec ({ msg := none } : MessageContext) =
        .error (ErrorMessage.new .Crash "message not available") := by
  constructor
  · simp [MessageContext.message_content, deserialize_message_content, hdec]
  · rfl

/-- Witness for C4's amended form: decoding `InitMessage` from an empty
payload mapping fails, and `message_content` wraps that failure as the cause
of a `MalformedRequest`. -/
theorem message_content_errors_witness :
    decodeInitMessage [] = .error "missing field `node_id`"
    ∧ (MessageContext.message_content decodeInitMessage
         { msg := some (mkMessage (some "c0") (some "n1") (some 1) none "init" []) } =
       .error ((ErrorMessage.new .MalformedRequest
         ("failed to deserialize message `" ++ "init" ++ "`")).withSource
           "missing field `node_id`")) :=
  ⟨rfl,
   (message_content_errors decodeInitMessage
     (mkMessage (some "c0") (some "n1") (some 1) none "init" [])
     "missing field `node_id`" rfl).1⟩

/-- Counterexample for C4 as stated: with no inbound message,
`message_content` fails with code 13 (`Crash`), while `MalformedRequest` is
code 12 — the claim names the wrong error kind for the missing-message
case. -/
theorem message_content_missing_message_is_crash :
    MessageContext.message_content decodeInitMessage
        ({ msg := none } : MessageContext) =
      .error (ErrorMessage.new .Crash "message not available")
    ∧ (ErrorMessage.new .Crash "message not available").code = 13
    ∧ ErrorKind.MalformedRequest.code = 12 :=
  ⟨rfl, rfl, rfl⟩

/-- C9 (amended): `reply` fails with a `Crash` error (code 13) exactly when
the payload serializes to neither `null` nor an object (`null` is accepted
and becomes the empty mapping); when it succeeds, the single appended
envelope has `dest` equal to the inbound message's `src` and `in_reply_to`
equal to the inbound message's `msg_id`. -/
theorem reply_serialization_gate_and_addressing
    (m : Message) (kind : String) (data : Json)
    (s : MaelstromServerMessageSender) :
    (MessageContext.reply { msg := some m } kind data s =
       if data.isNull || data.isObj then
         .ok (s.send kind data.asMapping m.src m.body.msg_id)
       else
         .error (ErrorMessage.new .Crash
           "message content must serialize to an object"))
    ∧ ((s.send kind data.asMapping m.src m.body.msg_id).outgoing_msgs =
        s.outgoing_msgs ++
          [mkMessage none m.src (some (s.outgoing_msgs.length + 1))
            m.body.msg_id kind data.asMapping])
    ∧ (ErrorMessage.new .Crash
        "message content must serialize to an object").code = 13 := by
  refine ⟨?_, rfl, rfl⟩
  cases data <;>
    simp [MessageContext.reply, MessageContext.send, serialize_message_content,
      Json.isNull, Json.isObj, Json.asMapping]

/-- Counterexample for C9 as stated: a `null` payload is not object-shaped,
yet `reply` succeeds (appending an envelope with the empty payload mapping)
instead of failing with `Crash` — the claim's "if and only if" fails in the
only-if direction. -/
theorem reply_null_payload_succeeds :
    (MessageContext.reply
        { msg := some (mkMessage (some "c0") (some "n1") (some 7) none "t" []) }
        "t_ok" Json.null (mkSender [] []) =
      .ok (mkSender []
        [mkMessage none (some "c0") (some 1) (some 7) "t_ok" []]))
    ∧ Json.isObj Json.null = false :=
  ⟨rfl, rfl⟩

/-- C1 (divergence witness): handling a well-formed `init` message produces
exactly one outbound envelope of kind `"init_ok"`, but it is a
destination-less announcement — `dest = none` and `in_reply_to = none` —
because `MaelstromServerNode::create` emits it through
`MessageContext::broadcast` rather than through `reply`.  The claim (and the
handshake contract) require `dest` = the init sender (`"c0"`) and
`in_reply_to` = the init request's `msg_id` (`1`). -/
theorem init_ok_is_destless_announce :
    ((MaelstromService.new.input (.ok (mkMessage (some "c0") (some "n1")
        (some 1) none "init"
        [("node_id", Json.str "n1"),
         ("node_ids", Json.arr [Json.str "n1", Json.str "n2"])]))).sender.outgoing_msgs
      = [mkMessage none none (some 1) none "init_ok" []])
    ∧ ((MaelstromService.new.input (.ok (mkMessage (some "c0") (some "n1")
        (some 1) none "init"
        [("node_id", Json.str "n1"),
         ("node_ids", Json.arr [Json.str "n1", Json.str "n2"])]))).node
      = some { node_id := some "n1", node_ids := ["n1", "n2"] }) :=
  ⟨rfl, rfl⟩

/-- Counterexample for C2 as stated: the sender assigns `msg_id` as the
current buffer length plus one, so after the buffer is drained the next
`send` reuses `msg_id` 1 — the sequence is not strictly increasing across a
run when sends interleave with pops. -/
theorem msg_ids_reused_after_pop :
    ((MaelstromServerMessageSender.new.send "a" [] none none).outgoing_msgs.map
        (fun m => m.body.msg_id) = [some 1])
    ∧ (((MaelstromServerMessageSender.new.send "a" [] none
          none).pop.2.send "b" [] none none).outgoing_msgs.map
        (fun m => m.body.msg_id) = [some 1]) :=
  ⟨rfl, rfl⟩

/-- The `msg_id`s assigned by a batch of `send` calls continue the buffer
length: the key inductive fact behind the amended C2. -/
theorem sendMany_assignedMsgIds
    (reqs : List (String × DynamicMap × Option String × Option Nat)) :
    ∀ s : MaelstromServerMessageSender,
      assignedMsgIds (sendMany s reqs) =
        assignedMsgIds s ++
          List.range' (s.outgoing_msgs.length + 1) reqs.length := by
  induction reqs with
  | nil => intro s; simp [sendMany, List.range']
  | cons r rs ih =>
      intro s
      have h1 : sendMany s (r :: rs) =
          sendMany (s.send r.1 r.2.1 r.2.2.1 r.2.2.2) rs := rfl
      rw [h1, ih]
      simp [assignedMsgIds, MaelstromServerMessageSender.send,
        List.filterMap_append, List.range'_succ]

/-- C2 (amended): starting from an empty outbound buffer, the `msg_id`s
assigned by any batch of `send` calls with no interleaved pops are exactly
`1, 2, ..., n` — strictly increasing, unique, starting at 1.  (As the
counterexample shows, the ids are reused once the buffer is drained between
sends, because the sequencer is the buffer length plus one rather than a
run-scoped counter.) -/
theorem send_ids_monotone_without_draining (ids : List String)
    (reqs : List (String × DynamicMap × Option String × Option Nat)) :
    assignedMsgIds (sendMany (mkSender ids []) reqs) =
      List.range' 1 reqs.length
    ∧ (assignedMsgIds (sendMany (mkSender ids []) reqs)).Pairwise (· < ·) := by
  have h := sendMany_assignedMsgIds reqs (mkSender ids [])
  have h0 : assignedMsgIds (mkSender ids []) = [] := rfl
  rw [h0] at h
  simp only [mkSender] at h
  constructor
  · simpa using h
  · rw [show assignedMsgIds (sendMany (mkSender ids []) reqs) =
        List.range' 1 reqs.length by simpa using h]
    exact List.pairwise_lt_range' 1 reqs.length

/-- C3: a non-`"init"` message received while the node is uninitialized fails
with a `PreconditionFailed` error (code 22) whose text names the offending
discriminator; the handler registry is never consulted (the outcome is the
same for every registry), and feeding the message through `input` appends
exactly one outbound `"error"` envelope. -/
theorem uninitialized_gate_precondition_failed
    (svc : MaelstromService) (msg : Message)
    (hnode : svc.node = none) (hkind : msg.kind ≠ "init") :
    (svc.handle msg =
       (svc, some (ErrorMessage.new .PreconditionFailed
         ("node is not initialized before handling message type " ++ msg.kind))))
    ∧ (ErrorMessage.new .PreconditionFailed
        ("node is not initialized before handling message type " ++
          msg.kind)).code = 22
    ∧ (∃ pre suf,
        ("node is not initialized before handling message type " ++ msg.kind)
          = pre ++ msg.kind ++ suf)
    ∧ ((svc.input (.ok msg)).sender.outgoing_msgs =
        svc.sender.outgoing_msgs ++
          [mkMessage none msg.src (some (svc.sender.outgoing_msgs.length + 1))
            msg.body.msg_id "error"
            [("code", Json.num 22),
             ("text", Json.str
               ("node is not initialized before handling message type " ++
                 msg.kind))]])
    ∧ ((svc.input (.ok msg)).node = none)
    ∧ (∀ reg', MaelstromService.handle { svc with handler := reg' } msg =
        ({ svc with handler := reg' },
         some (ErrorMessage.new .PreconditionFailed
           ("node is not initialized before handling message type " ++
             msg.kind)))) := by
  have hh : ∀ svc' : MaelstromService, svc'.node = none →
      svc'.handle msg =
        (svc', some (ErrorMessage.new .PreconditionFailed
          ("node is not initialized before handling message type " ++
            msg.kind))) := by
    intro svc' hn
    simp [MaelstromService.handle, MessageContext.message_kind,
      MessageContext.with_message, MessageContext.empty, hn, hkind]
  refine ⟨hh svc hnode, rfl,
    ⟨"node is not initialized before handling message type ", "",
      by rw [String.append_empty]⟩, ?_, ?_, fun reg' => hh _ hnode⟩
  · simp [MaelstromService.input, hh svc hnode, MessageContext.error,
      MessageContext.reply, MessageContext.send, serialize_message_content,
      ErrorMessage.toJson, ErrorMessage.new, ErrorKind.code,
      MaelstromServerMessageSender.send, mkMessage,
      MessageContext.with_message, MessageContext.empty]
  · simp [MaelstromService.input, hh svc hnode, MessageContext.error,
      MessageContext.reply, MessageContext.send, serialize_message_content,
      ErrorMessage.toJson, MessageContext.with_message, MessageContext.empty,
      hnode]

/-- Witness for C3: dispatching an `echo` before any `init` on a fresh
service yields exactly one outbound envelope, the code-22 error reply. -/
theorem uninitialized_gate_precondition_failed_witness :
    (MaelstromService.new.input
        (.ok (mkMessage (some "c1") (some "n1") (some 5) none "echo"
          [("echo", Json.str "x")]))).sender.outgoing_msgs =
      [mkMessage none (some "c1") (some 1) (some 5) "error"
        [("code", Json.num 22),
         ("text", Json.str
           ("node is not initialized before handling message type " ++
             "echo"))]] := by
  have h := (uninitialized_gate_precondition_failed MaelstromService.new
    (mkMessage (some "c1") (some "n1") (some 5) none "echo"
      [("echo", Json.str "x")]) rfl (by decide)).2.2.2.1
  simpa [MaelstromService.new, MaelstromServerMessageSender.new,
    mkMessage] using h

/-- C10: an `"init"` message whose payload fails to decode leaves the node
uninitialized (no identity, no peers stored), surfaces the decode error (a
`MalformedRequest` wrapping the cause), appends exactly one outbound
`"error"` envelope through `input`, and emits no `init_ok` envelope. -/
theorem failed_init_leaves_node_uninitialized
    (svc : MaelstromService) (msg : Message) (derr : String)
    (hkind : msg.kind = "init")
    (hdec : decodeInitMessage msg.body.content.data = .error derr)
    (hnode : svc.node = none) :
    (svc.handle msg =
       (svc, some ((ErrorMessage.new .MalformedRequest
         ("failed to deserialize message `" ++ msg.kind ++ "`")).withSource derr)))
    ∧ ((svc.input (.ok msg)).node = none)
    ∧ ((svc.input (.ok msg)).sender.outgoing_msgs =
        svc.sender.outgoing_msgs ++
          [mkMessage none msg.src (some (svc.sender.outgoing_msgs.length + 1))
            msg.body.msg_id "error"
            [("code", Json.num 12),
             ("text", Json.str
               ("failed to deserialize message `" ++ msg.kind ++ "`"))]])
    ∧ ((svc.input (.ok msg)).sender.outgoing_msgs.filter
          (fun m => m.body.content.kind == "init_ok") =
        svc.sender.outgoing_msgs.filter
          (fun m => m.body.content.kind == "init_ok")) := by
  have hh : svc.handle msg =
      (svc, some ((ErrorMessage.new .MalformedRequest
        ("failed to deserialize message `" ++ msg.kind ++ "`")).withSource derr)) := by
    have hkind' : msg.body.content.kind = "init" := hkind
    simp [MaelstromService.handle, MessageContext.message_kind,
      MessageContext.with_message, MessageContext.empty, hkind',
      MaelstromServerNode.create, MessageContext.message_content,
      deserialize_message_content, hdec, Message.kind]
  have hbuf : (svc.input (.ok msg)).sender.outgoing_msgs =
      svc.sender.outgoing_msgs ++
        [mkMessage none msg.src (some (svc.sender.outgoing_msgs.length + 1))
          msg.body.msg_id "error"
          [("code", Json.num 12),
           ("text", Json.str
             ("failed to deserialize message `" ++ msg.kind ++ "`"))]] := by
    simp [MaelstromService.input, hh, MessageContext.error,
      MessageContext.reply, MessageContext.send, serialize_message_content,
      ErrorMessage.toJson, ErrorMessage.new, ErrorMessage.withSource,
      ErrorKind.code, MaelstromServerMessageSender.send, mkMessage,
      MessageContext.with_message, MessageContext.empty]
  refine ⟨hh, ?_, hbuf, ?_⟩
  · simp [MaelstromService.input, hh, MessageContext.error,
      MessageContext.reply, MessageContext.send, serialize_message_content,
      ErrorMessage.toJson, MessageContext.with_message, MessageContext.empty,
      hnode]
  · rw [hbuf]
    simp [List.filter_append, mkMessage]

/-- Witness for C10: an `init` with an empty payload mapping on a fresh
service: the node stays `none` and the only outbound envelope is the error
reply. -/
theorem failed_init_leaves_node_uninitialized_witness :
    ((MaelstromService.new.input
        (.ok (mkMessage (some "c0") (some "n1") (some 1) none "init" []))).node
      = none)
    ∧ ((MaelstromService.new.input
        (.ok (mkMessage (some "c0") (some "n1") (some 1) none "init" []))).sender.outgoing_msgs
      = [mkMessage none (some "c0") (some 1) (some 1) "error"
          [("code", Json.num 12),
           ("text", Json.str ("failed to deserialize message `" ++ "init" ++ "`"))]]) := by
  have h := failed_init_leaves_node_uninitialized MaelstromService.new
    (mkMessage (some "c0") (some "n1") (some 1) none "init" [])
    "missing field `node_id`" rfl rfl rfl
  refine ⟨h.2.1, ?_⟩
  have hbuf := h.2.2.1
  simpa [MaelstromService.new, MaelstromServerMessageSender.new, mkMessage]
    using hbuf

/-- The fold inside `fan_out` appends exactly the `fanOutEnvs` envelopes and
leaves the peer set unchanged. -/
theorem fanOut_foldl (kind : String) (data : DynamicMap) :
    ∀ (peers : List String) (s : MaelstromServerMessageSender),
      ((peers.foldl (fun st p => st.send kind data (some p) none) s).outgoing_msgs
         = s.outgoing_msgs ++ fanOutEnvs s.outgoing_msgs.length kind data peers)
      ∧ ((peers.foldl (fun st p => st.send kind data (some p) none) s).node_ids
         = s.node_ids) := by
  intro peers
  induction peers with
  | nil => intro s; simp [fanOutEnvs]
  | cons p ps ih =>
      intro s
      have h := ih (s.send kind data (some p) none)
      constructor
      · rw [List.foldl_cons, h.1]
        simp [MaelstromServerMessageSender.send, fanOutEnvs]
      · rw [List.foldl_cons, h.2]
        rfl

/-- Shape of the envelopes `fanOutEnvs` describes: one per peer in order,
destination the peer, no correlation, verbatim payload, consecutive ids. -/
theorem fanOutEnvs_spec (kind : String) (data : DynamicMap) :
    ∀ (peers : List String) (base : Nat),
      ((fanOutEnvs base kind data peers).length = peers.length)
      ∧ ((fanOutEnvs base kind data peers).map (fun m => m.dest) = peers.map some)
      ∧ ((fanOutEnvs base kind data peers).map (fun m => m.body.in_reply_to)
          = peers.map (fun _ => none))
      ∧ ((fanOutEnvs base kind data peers).map (fun m => m.body.content.data)
          = peers.map (fun _ => data))
      ∧ ((fanOutEnvs base kind data peers).map (fun m => m.body.content.kind)
          = peers.map (fun _ => kind))
      ∧ ((fanOutEnvs base kind data peers).map (fun m => m.body.msg_id)
          = (List.range' (base + 1) peers.length).map some) := by
  intro peers
  induction peers with
  | nil => intro base; simp [fanOutEnvs]
  | cons p ps ih =>
      intro base
      have h := ih (base + 1)
      refine ⟨?_, ?_, ?_, ?_, ?_, ?_⟩ <;>
        simp [fanOutEnvs, h.1, h.2.1, h.2.2.1, h.2.2.2.1, h.2.2.2.2.1,
          h.2.2.2.2.2, List.range'_succ]

/-- The `msg_id`s within one fan-out batch are pairwise distinct. -/
theorem fanOutEnvs_msgIds_distinct (kind : String) (data : DynamicMap)
    (peers : List String) (base : Nat) :
    (fanOutEnvs base kind data peers).Pairwise
      (fun a b => a.body.msg_id ≠ b.body.msg_id) := by
  have hmap := (fanOutEnvs_spec kind data peers base).2.2.2.2.2
  have hnd : ((List.range' (base + 1) peers.length).map some).Nodup :=
    (List.nodup_range' (base + 1) peers.length).map (Option.some_injective Nat)
  rw [← hmap] at hnd
  exact List.pairwise_map.mp hnd

/-- C8: `fan_out` appends exactly one envelope per known peer, in peer-set
order, each addressed to its peer, none carrying `in_reply_to`, each with its
own freshly assigned distinct `msg_id` continuing the sequencer, and each
carrying the payload mapping verbatim; the context-level `fan_out` hands an
object payload to the sender unchanged. -/
theorem fan_out_one_envelope_per_peer
    (s : MaelstromServerMessageSender) (kind : String) (data : DynamicMap) :
    ((s.fan_out kind data).outgoing_msgs =
       s.outgoing_msgs ++
         fanOutEnvs s.outgoing_msgs.length kind data s.node_ids)
    ∧ ((fanOutEnvs s.outgoing_msgs.length kind data s.node_ids).length
        = s.node_ids.length)
    ∧ ((fanOutEnvs s.outgoing_msgs.length kind data s.node_ids).map
          (fun m => m.dest) = s.node_ids.map some)
    ∧ ((fanOutEnvs s.outgoing_msgs.length kind data s.node_ids).map
          (fun m => m.body.in_reply_to) = s.node_ids.map (fun _ => none))
    ∧ ((fanOutEnvs s.outgoing_msgs.length kind data s.node_ids).map
          (fun m => m.body.content.data) = s.node_ids.map (fun _ => data))
    ∧ ((fanOutEnvs s.outgoing_msgs.length kind data s.node_ids).map
          (fun m => m.body.msg_id)
        = (List.range' (s.outgoing_msgs.length + 1) s.node_ids.length).map some)
    ∧ ((fanOutEnvs s.outgoing_msgs.length kind data s.node_ids).Pairwise
        (fun a b => a.body.msg_id ≠ b.body.msg_id))
    ∧ (∀ ctx : MessageContext,
        MessageContext.fan_out ctx kind (Json.obj data) s
          = .ok (s.fan_out kind data)) := by
  have hspec := fanOutEnvs_spec kind data s.node_ids s.outgoing_msgs.length
  exact ⟨(fanOut_foldl kind data s.node_ids s).1, hspec.1, hspec.2.1,
    hspec.2.2.1, hspec.2.2.2.1, hspec.2.2.2.2.2,
    fanOutEnvs_msgIds_distinct kind data s.node_ids s.outgoing_msgs.length,
    fun _ => rfl⟩

/-- Folding `register_handler` over handlers that all declare the single
discriminator `k` extends `k`'s index list with the consecutive indices of
the appended handlers. -/
theorem registryOf_fold (k : String) :
    ∀ (fns : List HandlerFn) (idxs : List Nat) (hs : List HandlerFn),
      List.foldl (fun r p => r.register_handler p.1 p.2)
          ({ msg_handlers := [(k, idxs)], handlers := hs } :
            MaelstromServerMessageHandler)
          (fns.map (fun h => (h, [k])))
        = { msg_handlers := [(k, idxs ++ List.range' hs.length fns.length)],
            handlers := hs ++ fns } := by
  intro fns
  induction fns with
  | nil => intro idxs hs; simp [List.range']
  | cons f fs ih =>
      intro idxs hs
      have hstep : MaelstromServerMessageHandler.register_handler
          { msg_handlers := [(k, idxs)], handlers := hs } f [k]
          = { msg_handlers := [(k, idxs ++ [hs.length])],
              handlers := hs ++ [f] } := by
        simp [MaelstromServerMessageHandler.register_handler, addHandlerIdx]
      simp only [List.map_cons, List.foldl_cons, hstep]
      rw [ih (idxs ++ [hs.length]) (hs ++ [f])]
      simp [List.range'_succ, List.append_assoc]

/-- A registry built by registering a nonempty list of handlers, each for the
single discriminator `k`, maps `k` to exactly the indices `0, ..., n-1` in
registration order. -/
theorem registryOf_single_kind (k : String) (f : HandlerFn)
    (fs : List HandlerFn) :
    registryOf ((f :: fs).map (fun h => (h, [k])))
      = { msg_handlers := [(k, List.range' 0 (fs.length + 1))],
          handlers := f :: fs } := by
  have h0 : MaelstromServerMessageHandler.new.register_handler f [k]
      = { msg_handlers := [(k, [0])], handlers := [f] } := by
    simp [MaelstromServerMessageHandler.new,
      MaelstromServerMessageHandler.register_handler, addHandlerIdx]
  simp only [registryOf, List.map_cons, List.foldl_cons, h0]
  rw [registryOf_fold k fs [0] [f]]
  simp [List.range'_succ]

/-- Running the index loop over the consecutive indices of a suffix of the
handler list is running the handler denotations themselves, in order. -/
theorem runHandlerIdxs_range (ctx : MessageContext) :
    ∀ (fns pre : List HandlerFn) (s : MaelstromServerMessageSender),
      runHandlerIdxs (pre ++ fns) ctx (List.range' pre.length fns.length) s
        = runHandlerFns ctx fns s := by
  intro fns
  induction fns with
  | nil => intro pre s; rfl
  | cons f fs ih =>
      intro pre s
      simp only [List.length_cons, List.range'_succ]
      have hget : (pre ++ f :: fs).getD pre.length (fun _ st => (st, none))
          = f := by
        rw [List.getD_eq_getElem?_getD,
          List.getElem?_append_right (Nat.le_refl _)]
        simp
      show runHandlerIdxs (pre ++ f :: fs) ctx
          (pre.length :: List.range' (pre.length + 1) fs.length) s
        = runHandlerFns ctx (f :: fs) s
      unfold runHandlerIdxs runHandlerFns
      rw [hget]
      cases hf : f ctx s with
      | mk s' oe =>
          cases oe with
          | none =>
              have h2 := ih (pre ++ [f]) s'
              simp only [List.append_assoc, List.singleton_append,
                List.length_append, List.length_singleton] at h2
              simpa using h2
          | some e => rfl

/-- Dispatching through a registry whose handlers all registered for the
inbound discriminator runs exactly those handlers, in registration order,
against the given context. -/
theorem handle_message_registryOf (k : String) (f : HandlerFn)
    (fs : List HandlerFn) (ctx : MessageContext)
    (s : MaelstromServerMessageSender) (hk : ctx.message_kind = k) :
    (registryOf ((f :: fs).map (fun h => (h, [k])))).handle_message ctx s
      = runHandlerFns ctx (f :: fs) s := by
  unfold MaelstromServerMessageHandler.handle_message
  rw [registryOf_single_kind, hk]
  simp only [List.lookup, beq_self_eq_true]
  have h := runHandlerIdxs_range ctx (f :: fs) [] s
  simpa using h

/-- A run of handlers that all succeed neither stops early nor yields an
error: the loop is the plain fold of their state transformations. -/
theorem runHandlerFns_all_ok (ctx : MessageContext) :
    ∀ (good : List HandlerFn) (s : MaelstromServerMessageSender),
      (∀ g ∈ good, ∀ st, (g ctx st).2 = none) →
      runHandlerFns ctx good s = (runAllHandlers ctx good s, none) := by
  intro good
  induction good with
  | nil => intro s _; rfl
  | cons g gs ih =>
      intro s hok
      have hg := hok g (List.mem_cons_self g gs) s
      unfold runHandlerFns
      cases hf : g ctx s with
      | mk s' oe =>
          rw [hf] at hg
          subst hg
          show runHandlerFns ctx gs s' = _
          rw [ih s' (fun g' hg' st => hok g' (List.mem_cons_of_mem _ hg') st)]
          simp [runAllHandlers, hf]

/-- The loop over `good ++ t` with all of `good` succeeding continues into
`t` from the state `good` left behind. -/
theorem runHandlerFns_append_ok (ctx : MessageContext) :
    ∀ (good t : List HandlerFn) (s : MaelstromServerMessageSender),
      (∀ g ∈ good, ∀ st, (g ctx st).2 = none) →
      runHandlerFns ctx (good ++ t) s
        = runHandlerFns ctx t (runAllHandlers ctx good s) := by
  intro good
  induction good with
  | nil => intro t s _; rfl
  | cons g gs ih =>
      intro t s hok
      have hg := hok g (List.mem_cons_self g gs) s
      show runHandlerFns ctx (g :: (gs ++ t)) s = _
      unfold runHandlerFns
      cases hf : g ctx s with
      | mk s' oe =>
          rw [hf] at hg
          subst hg
          show runHandlerFns ctx (gs ++ t) s' = _
          rw [ih t s' (fun g' hg' st => hok g' (List.mem_cons_of_mem _ hg') st)]
          simp only [runAllHandlers, List.foldl_cons, hf]
          cases t <;> rfl

/-- The registry bridge for any nonempty handler list. -/
theorem handle_message_registryOf_ne (k : String) (fns : List HandlerFn)
    (hne : fns ≠ []) (ctx : MessageContext)
    (s : MaelstromServerMessageSender) (hk : ctx.message_kind = k) :
    (registryOf (fns.map (fun h => (h, [k])))).handle_message ctx s
      = runHandlerFns ctx fns s := by
  obtain ⟨f, fs, rfl⟩ := List.exists_cons_of_ne_nil hne
  exact handle_message_registryOf k f fs ctx s hk

/-- C7: with several handlers registered for one discriminator, dispatch runs
them in registration order against the same context (all-success case); when
one fails, dispatch returns that handler's error and post-state, handlers
registered after it are never consulted (the outcome is independent of them),
and whatever the earlier successful handlers appended to the buffer is still
there in the returned state. -/
theorem dispatch_order_same_context_stop_on_failure
    (ctx : MessageContext) (s sb : MaelstromServerMessageSender) (k : String)
    (good : List HandlerFn) (bad : HandlerFn) (rest : List HandlerFn)
    (e : ErrorMessage)
    (hk : ctx.message_kind = k)
    (hgood : ∀ g ∈ good, ∀ st, (g ctx st).2 = none)
    (hbad : bad ctx (runAllHandlers ctx good s) = (sb, some e)) :
    ((registryOf ((good ++ bad :: rest).map (fun h => (h, [k])))).handle_message
        ctx s = (sb, some e))
    ∧ (∀ rest' : List HandlerFn,
        (registryOf ((good ++ bad :: rest').map
            (fun h => (h, [k])))).handle_message ctx s = (sb, some e))
    ∧ (∀ (f : HandlerFn) (gs : List HandlerFn), good = f :: gs →
        (registryOf (good.map (fun h => (h, [k])))).handle_message ctx s
          = (runAllHandlers ctx good s, none))
    ∧ (∀ d : List Message,
        sb.outgoing_msgs = (runAllHandlers ctx good s).outgoing_msgs ++ d →
        ((registryOf ((good ++ bad :: rest).map
            (fun h => (h, [k])))).handle_message ctx s).1.outgoing_msgs
          = (runAllHandlers ctx good s).outgoing_msgs ++ d) := by
  have hmain : ∀ rest' : List HandlerFn,
      (registryOf ((good ++ bad :: rest').map
          (fun h => (h, [k])))).handle_message ctx s = (sb, some e) := by
    intro rest'
    rw [handle_message_registryOf_ne k (good ++ bad :: rest') (by simp) ctx s hk]
    rw [runHandlerFns_append_ok ctx good (bad :: rest') s hgood]
    unfold runHandlerFns
    rw [hbad]
  refine ⟨hmain rest, hmain, ?_, ?_⟩
  · intro f gs hgd
    subst hgd
    rw [handle_message_registryOf k f gs ctx s hk]
    exact runHandlerFns_all_ok ctx (f :: gs) s hgood
  · intro d hd
    rw [hmain rest]
    exact hd

/-- Witness for C7: two handlers for kind `"test"`, the first appends one
envelope and succeeds, the second fails; a third registered handler never
runs.  Dispatch returns the failure and the buffer still holds the first
handler's envelope. -/
theorem dispatch_order_same_context_stop_on_failure_witness :
    (registryOf
        [(((fun _ st => (st.send "hello" [] none none, none)) : HandlerFn),
            ["test"]),
         (((fun _ st => (st, some (ErrorMessage.new .Crash "hello there"))) :
            HandlerFn), ["test"]),
         (((fun _ st => (st.send "hi" [] none none, none)) : HandlerFn),
            ["test"])]).handle_message
        { msg := some (mkMessage none none (some 1) none "test" []) }
        (mkSender [] [])
      = ((mkSender [] []).send "hello" [] none none,
         some (ErrorMessage.new .Crash "hello there")) := by
  have h := dispatch_order_same_context_stop_on_failure
    { msg := some (mkMessage none none (some 1) none "test" []) }
    (mkSender [] []) ((mkSender [] []).send "hello" [] none none) "test"
    [fun _ st => (st.send "hello" [] none none, none)]
    (fun _ st => (st, some (ErrorMessage.new .Crash "hello there")))
    [fun _ st => (st.send "hi" [] none none, none)]
    (ErrorMessage.new .Crash "hello there")
    rfl
    (by
      intro g hg st
      rw [List.mem_singleton.mp hg])
    rfl
  exact h.1
